import Mathlib

/-!
# Verification of the 4x4 matrix math module of GLprimer.cpp

The repository's only algorithmic core is a small column-major 4x4 matrix
library (`mat4identity`, `mat4mult`, `mat4rotx/y/z`, `mat4scale`,
`mat4translate`, `mat4perspective`) in `src/Labmaterial/GLprimer.cpp`.
We embed a `float M[16]` as a function `Fin 16 → ℝ` (element index =
column*4 + row, as in the source), translate each function element by
element from the source, and additionally give a small flat-memory model
with base addresses so that the aliasing behaviour of `mat4mult`
(`Mout` may alias `M1` or `M2`) can be stated and proved.
-/

namespace GLprimer

noncomputable section

/-- A 4x4 matrix as stored by the C code: a flat 16-element buffer of
floats (embedded as reals), column-major, element index = column*4+row. -/
abbrev Mat4 := Fin 16 → ℝ

/-- `mat4identity` from GLprimer.cpp: writes the 16 elements of the
identity matrix, element by element. -/
def mat4identity : Mat4 := fun i =>
  match i.val with
  | 0 => 1
  | 1 => 0
  | 2 => 0
  | 3 => 0
  | 4 => 0
  | 5 => 1
  | 6 => 0
  | 7 => 0
  | 8 => 0
  | 9 => 0
  | 10 => 1
  | 11 => 0
  | 12 => 0
  | 13 => 0
  | 14 => 0
  | _ => 1

/-- The 16 products computed into `Mtemp` by `mat4mult` in GLprimer.cpp:
`Mtemp[c*4+r] = Σ_k M1[k*4+r] * M2[c*4+k]`, written out exactly as the
source writes each element. -/
def mat4mult (M1 M2 : Mat4) : Mat4 := fun i =>
  match i.val with
  | 0 => M1 0 * M2 0 + M1 4 * M2 1 + M1 8 * M2 2 + M1 12 * M2 3
  | 4 => M1 0 * M2 4 + M1 4 * M2 5 + M1 8 * M2 6 + M1 12 * M2 7
  | 8 => M1 0 * M2 8 + M1 4 * M2 9 + M1 8 * M2 10 + M1 12 * M2 11
  | 12 => M1 0 * M2 12 + M1 4 * M2 13 + M1 8 * M2 14 + M1 12 * M2 15
  | 1 => M1 1 * M2 0 + M1 5 * M2 1 + M1 9 * M2 2 + M1 13 * M2 3
  | 5 => M1 1 * M2 4 + M1 5 * M2 5 + M1 9 * M2 6 + M1 13 * M2 7
  | 9 => M1 1 * M2 8 + M1 5 * M2 9 + M1 9 * M2 10 + M1 13 * M2 11
  | 13 => M1 1 * M2 12 + M1 5 * M2 13 + M1 9 * M2 14 + M1 13 * M2 15
  | 2 => M1 2 * M2 0 + M1 6 * M2 1 + M1 10 * M2 2 + M1 14 * M2 3
  | 6 => M1 2 * M2 4 + M1 6 * M2 5 + M1 10 * M2 6 + M1 14 * M2 7
  | 10 => M1 2 * M2 8 + M1 6 * M2 9 + M1 10 * M2 10 + M1 14 * M2 11
  | 14 => M1 2 * M2 12 + M1 6 * M2 13 + M1 10 * M2 14 + M1 14 * M2 15
  | 3 => M1 3 * M2 0 + M1 7 * M2 1 + M1 11 * M2 2 + M1 15 * M2 3
  | 7 => M1 3 * M2 4 + M1 7 * M2 5 + M1 11 * M2 6 + M1 15 * M2 7
  | 11 => M1 3 * M2 8 + M1 7 * M2 9 + M1 11 * M2 10 + M1 15 * M2 11
  | _ => M1 3 * M2 12 + M1 7 * M2 13 + M1 11 * M2 14 + M1 15 * M2 15

/-- `mat4rotx` from GLprimer.cpp: `mat4identity(M)` followed by
`M[5]=cos, M[6]=sin, M[9]=-sin, M[10]=cos`. -/
def mat4rotx (angle : ℝ) : Mat4 := fun i =>
  match i.val with
  | 5 => Real.cos angle
  | 6 => Real.sin angle
  | 9 => -Real.sin angle
  | 10 => Real.cos angle
  | _ => mat4identity i

/-- `mat4roty` from GLprimer.cpp: `mat4identity(M)` followed by
`M[0]=cos, M[2]=-sin, M[8]=sin, M[10]=cos`. -/
def mat4roty (angle : ℝ) : Mat4 := fun i =>
  match i.val with
  | 0 => Real.cos angle
  | 2 => -Real.sin angle
  | 8 => Real.sin angle
  | 10 => Real.cos angle
  | _ => mat4identity i

/-- `mat4rotz` from GLprimer.cpp: `mat4identity(M)` followed by
`M[0]=cos, M[1]=sin, M[4]=-sin, M[5]=cos`. -/
def mat4rotz (angle : ℝ) : Mat4 := fun i =>
  match i.val with
  | 0 => Real.cos angle
  | 1 => Real.sin angle
  | 4 => -Real.sin angle
  | 5 => Real.cos angle
  | _ => mat4identity i

/-- `mat4scale` from GLprimer.cpp: `mat4identity(M)` followed by
`M[0]=scale, M[5]=scale, M[10]=scale, M[15]=scale`. -/
def mat4scale (scale : ℝ) : Mat4 := fun i =>
  match i.val with
  | 0 => scale
  | 5 => scale
  | 10 => scale
  | 15 => scale
  | _ => mat4identity i

/-- `mat4translate` from GLprimer.cpp: `mat4identity(M)` followed by
`M[12]=x, M[13]=y, M[14]=z`. -/
def mat4translate (x y z : ℝ) : Mat4 := fun i =>
  match i.val with
  | 12 => x
  | 13 => y
  | 14 => z
  | _ => mat4identity i

/-- `mat4perspective` from GLprimer.cpp: `mat4identity(M)`,
`f = 1.0/tan(vfov/2)`, then the six overwritten elements. -/
def mat4perspective (vfov aspect znear zfar : ℝ) : Mat4 := fun i =>
  let f : ℝ := 1 / Real.tan (vfov / 2)
  match i.val with
  | 0 => f / aspect
  | 5 => f
  | 10 => -((zfar + znear) / (zfar - znear))
  | 11 => -1
  | 14 => -((2 * zfar * znear) / (zfar - znear))
  | 15 => 0
  | _ => mat4identity i

end

end GLprimer

namespace GLprimer

noncomputable section

/-! ## Flat-memory model for the aliasing behaviour of `mat4mult`

`mat4mult(float M1[], float M2[], float Mout[])` takes three raw pointers
that may alias each other arbitrarily. We model the float store as a map
from addresses to reals, an argument as a base address, and the body of
the C function literally: the sixteen `Mtemp` values are computed from
the store (the local `Mtemp` array is fresh and cannot alias the
arguments), then the final `for` loop copies `Mtemp[i]` to `Mout[i]` for
`i = 0..15`, in that order, each iteration a store write. -/

/-- The float store: address to value. -/
abbrev Mem := Nat → ℝ

/-- A single store write. -/
def wr (m : Mem) (a : Nat) (v : ℝ) : Mem := fun x => if x = a then v else m x

/-- The 16-element buffer starting at base address `a`. -/
def readMat (m : Mem) (a : Nat) : Mat4 := fun i => m (a + i.val)

/-- `mat4mult(M1, M2, Mout)` on the store: `M1`, `M2`, `Mout` are the
buffers at base addresses `a1`, `a2`, `aout`. All sixteen `Mtemp`
products are computed first (reading only `M1` and `M2`, writing only
the fresh local `Mtemp`), then the copy loop `Mout[i] = Mtemp[i]` for
`i = 0..15` runs, here unrolled in execution order: the write of
iteration `i = 15` is the outermost (latest) store update. -/
def mat4multRun (m : Mem) (a1 a2 aout : Nat) : Mem :=
  let Mtemp : Mat4 := mat4mult (readMat m a1) (readMat m a2)
  wr (wr (wr (wr (wr (wr (wr (wr (wr (wr (wr (wr (wr (wr (wr (wr m
    (aout + 0) (Mtemp 0)) (aout + 1) (Mtemp 1)) (aout + 2) (Mtemp 2))
    (aout + 3) (Mtemp 3)) (aout + 4) (Mtemp 4)) (aout + 5) (Mtemp 5))
    (aout + 6) (Mtemp 6)) (aout + 7) (Mtemp 7)) (aout + 8) (Mtemp 8))
    (aout + 9) (Mtemp 9)) (aout + 10) (Mtemp 10)) (aout + 11) (Mtemp 11))
    (aout + 12) (Mtemp 12)) (aout + 13) (Mtemp 13)) (aout + 14) (Mtemp 14))
    (aout + 15) (Mtemp 15)

end

end GLprimer

namespace GLprimer

/-- C10: `mat4scale` with factor 1 returns exactly the identity matrix,
element for element: the element-15 quirk is invisible at factor 1. -/
theorem mat4scale_one_eq_identity : mat4scale 1 = mat4identity := by
  funext i
  fin_cases i <;> rfl

/-- C3: for every scalar factor, `mat4scale(M, factor)` is the identity
matrix with its full diagonal (indices 0, 5, 10 and 15 — including
element 15, the homogeneous w component) replaced by the factor, and all
off-diagonal elements equal to 0. -/
theorem mat4scale_spec (factor : ℝ) (i : Fin 16) :
    mat4scale factor i =
      if i.val = 0 ∨ i.val = 5 ∨ i.val = 10 ∨ i.val = 15 then factor else 0 := by
  fin_cases i <;> simp [mat4scale, mat4identity]

/-- C6: for all scalars x, y, z, `mat4translate(M, x, y, z)` differs
from the identity only at indices 12, 13, 14, which hold x, y, z
(translation in the last column, column-major); all other 13 elements
equal the corresponding identity elements. -/
theorem mat4translate_spec (x y z : ℝ) (i : Fin 16) :
    mat4translate x y z i =
      if i.val = 12 then x else if i.val = 13 then y else if i.val = 14 then z
      else mat4identity i := by
  fin_cases i <;> simp [mat4translate]

/-- C5: `mat4rotx`, `mat4roty` and `mat4rotz` each return the identity
matrix with the standard right-handed rotation block for their axis
substituted and every other element unchanged from identity:
rotX sets [5]=cos, [6]=sin, [9]=-sin, [10]=cos; rotY sets [0]=cos,
[2]=-sin, [8]=sin, [10]=cos; rotZ sets [0]=cos, [1]=sin, [4]=-sin,
[5]=cos (column-major, index = column*4 + row). -/
theorem mat4rot_spec (angle : ℝ) (i : Fin 16) :
    (mat4rotx angle i =
      if i.val = 5 then Real.cos angle else if i.val = 6 then Real.sin angle
      else if i.val = 9 then -Real.sin angle
      else if i.val = 10 then Real.cos angle else mat4identity i) ∧
    (mat4roty angle i =
      if i.val = 0 then Real.cos angle else if i.val = 2 then -Real.sin angle
      else if i.val = 8 then Real.sin angle
      else if i.val = 10 then Real.cos angle else mat4identity i) ∧
    (mat4rotz angle i =
      if i.val = 0 then Real.cos angle else if i.val = 1 then Real.sin angle
      else if i.val = 4 then -Real.sin angle
      else if i.val = 5 then Real.cos angle else mat4identity i) := by
  refine ⟨?_, ?_, ?_⟩ <;> fin_cases i <;> rfl

/-- C4: the matrix produced by `mat4identity` is a two-sided identity
for `mat4mult`: for every M, multiply(identity, M) = M and
multiply(M, identity) = M, exactly; in particular
multiply(translate(1,2,3), identity) equals translate(1,2,3) exactly. -/
theorem mat4identity_mult_id (M : Mat4) :
    mat4mult mat4identity M = M ∧ mat4mult M mat4identity = M ∧
    mat4mult (mat4translate 1 2 3) mat4identity = mat4translate 1 2 3 := by
  refine ⟨?_, ?_, ?_⟩ <;> funext i <;> fin_cases i <;>
    simp [mat4mult, mat4identity]

/-- C8: `mat4mult` is associative (exact equality over the
exact-arithmetic embedding): multiply(multiply(A,B),C) =
multiply(A,multiply(B,C)) for all A, B, C. -/
theorem mat4mult_assoc (A B C : Mat4) :
    mat4mult (mat4mult A B) C = mat4mult A (mat4mult B C) := by
  funext i
  fin_cases i <;> simp [mat4mult] <;> ring

/-- C7: rotations compose with their inverses back to the identity:
for every angle θ, multiply(rotateZ(θ), rotateZ(-θ)) and
multiply(rotateY(θ), rotateY(-θ)) equal the identity exactly in the
exact-arithmetic embedding (hence within any floating-point tolerance,
in particular for θ ∈ {0, π/4, π/2, π, 3π/2}). -/
theorem mat4rot_inverse_roundtrip (θ : ℝ) :
    mat4mult (mat4rotz θ) (mat4rotz (-θ)) = mat4identity ∧
    mat4mult (mat4roty θ) (mat4roty (-θ)) = mat4identity := by
  have h := Real.sin_sq_add_cos_sq θ
  constructor <;> funext i <;> fin_cases i <;>
    simp [mat4mult, mat4rotz, mat4roty, mat4identity, Real.cos_neg, Real.sin_neg] <;>
    nlinarith [h]

/-- C1: `mat4mult(M1, M2, Mout)` stores the product of the initial
contents of `M1` and `M2` into `Mout` for every choice of base
addresses, including the aliased calls `aout = a1`, `aout = a2` (or
both) that the render loop performs (`mat4mult(T, MV, MV)`): all 16
products go into the fresh local `Mtemp` before any output element is
written, so all 16 output elements equal the pure product of the inputs
as read before the call, and no output element depends on the output
buffer's prior contents. -/
theorem mat4mult_alias_safe (m : Mem) (a1 a2 aout : Nat) (i : Fin 16) :
    mat4multRun m a1 a2 aout (aout + i.val) =
      mat4mult (readMat m a1) (readMat m a2) i := by
  fin_cases i <;> simp [mat4multRun, wr, add_right_inj]

/-- C2: for zFar ≠ zNear, fov in (0, π), aspect > 0,
`mat4perspective(M, fov, aspect, zNear, zFar)` produces, with
f = 1/tan(fov/2): element[0] = f/aspect, element[5] = f,
element[10] = -(zFar+zNear)/(zFar-zNear), element[11] = -1,
element[14] = -(2·zFar·zNear)/(zFar-zNear), element[15] = 0, all other
elements those of the identity; and perspective(π/2, 1.0, 0.1, 100.0)
yields element[0]=1, element[5]=1, element[10]≈-1.002002,
element[11]=-1, element[14]≈-0.2002002, element[15]=0 within 1e-4. -/
theorem mat4perspective_spec (vfov aspect znear zfar : ℝ)
    (_hz : zfar ≠ znear) (_hfov : 0 < vfov ∧ vfov < Real.pi) (_ha : 0 < aspect) :
    (∀ i : Fin 16,
      mat4perspective vfov aspect znear zfar i =
        if i.val = 0 then (1 / Real.tan (vfov / 2)) / aspect
        else if i.val = 5 then 1 / Real.tan (vfov / 2)
        else if i.val = 10 then -((zfar + znear) / (zfar - znear))
        else if i.val = 11 then -1
        else if i.val = 14 then -((2 * zfar * znear) / (zfar - znear))
        else if i.val = 15 then 0
        else mat4identity i) ∧
    (mat4perspective (Real.pi / 2) 1 0.1 100 0 = 1 ∧
     mat4perspective (Real.pi / 2) 1 0.1 100 5 = 1 ∧
     |mat4perspective (Real.pi / 2) 1 0.1 100 10 - (-1.002002)| ≤ 1 / 10000 ∧
     mat4perspective (Real.pi / 2) 1 0.1 100 11 = -1 ∧
     |mat4perspective (Real.pi / 2) 1 0.1 100 14 - (-0.2002002)| ≤ 1 / 10000 ∧
     mat4perspective (Real.pi / 2) 1 0.1 100 15 = 0) := by
  have htan : Real.tan (Real.pi / 2 / 2) = 1 := by
    rw [show Real.pi / 2 / 2 = Real.pi / 4 by ring]
    exact Real.tan_pi_div_four
  have e0 : mat4perspective (Real.pi / 2) 1 0.1 100 0 =
      (1 / Real.tan (Real.pi / 2 / 2)) / 1 := rfl
  have e5 : mat4perspective (Real.pi / 2) 1 0.1 100 5 =
      1 / Real.tan (Real.pi / 2 / 2) := rfl
  have e10 : mat4perspective (Real.pi / 2) 1 0.1 100 10 =
      -((100 + 0.1) / (100 - 0.1)) := rfl
  have e14 : mat4perspective (Real.pi / 2) 1 0.1 100 14 =
      -((2 * 100 * 0.1) / (100 - 0.1)) := rfl
  refine ⟨fun i => by fin_cases i <;> rfl, ?_, ?_, ?_, rfl, ?_, rfl⟩
  · rw [e0, htan]; norm_num
  · rw [e5, htan]; norm_num
  · rw [e10, abs_le]; constructor <;> norm_num
  · rw [e14, abs_le]; constructor <;> norm_num

/-- Witness for C2: the hypotheses hold at
fov = π/2, aspect = 1, zNear = 0.1, zFar = 100, and the call there gives
element[11] = -1 and element[15] = 0. -/
theorem mat4perspective_spec_witness :
    mat4perspective (Real.pi / 2) 1 0.1 100 11 = -1 ∧
    mat4perspective (Real.pi / 2) 1 0.1 100 15 = 0 := by
  have h := mat4perspective_spec (Real.pi / 2) 1 0.1 100 (by norm_num)
    ⟨by linarith [Real.pi_pos], by linarith [Real.pi_pos]⟩ (by norm_num)
  exact ⟨h.2.2.2.2.1, h.2.2.2.2.2.2⟩

/-- C9: the matrix module validates nothing and signals no error: with
no precondition at all, every real input — including the degenerate
zFar = zNear — makes `mat4perspective` return the full 16-element
matrix given by the unguarded arithmetic below; at zFar = zNear the
elements at indices 10 and 14 are the quotients whose denominator is
znear - znear, i.e. 0, and no structured failure exists. -/
theorem mat4perspective_total (vfov aspect znear zfar : ℝ) (i : Fin 16) :
    (mat4perspective vfov aspect znear zfar i =
      if i.val = 0 then (1 / Real.tan (vfov / 2)) / aspect
      else if i.val = 5 then 1 / Real.tan (vfov / 2)
      else if i.val = 10 then -((zfar + znear) / (zfar - znear))
      else if i.val = 11 then -1
      else if i.val = 14 then -((2 * zfar * znear) / (zfar - znear))
      else if i.val = 15 then 0
      else mat4identity i) ∧
    (mat4perspective vfov aspect znear znear 10 =
      -((znear + znear) / (znear - znear)) ∧
     mat4perspective vfov aspect znear znear 14 =
      -((2 * znear * znear) / (znear - znear)) ∧
     znear - znear = 0) := by
  exact ⟨by fin_cases i <;> rfl, rfl, rfl, sub_self znear⟩

end GLprimer
